import Mathlib

/-!
Verification of the PIO pin-configuration engine of
`src/hardware/sam/system/libsam/source/pio.c`.

The register block of one PIO controller (`Pio *pPio` in the C code) is
modelled as a plain read/write memory, exactly as the specification's §8
prescribes ("a simulated register block ... standing in for the hardware"):
one natural-number field per memory-mapped register that `pio.c` touches.
Each C function becomes a state-passing Lean function; a C function that
returns `uint32_t` returns `Nat × Pio`, a `void` function returns the
updated state (with `PIO_SetPeripheral` keeping an explicit `Unit` result
so that statements about its returned value can be made).  Machine
integers are `Nat` with explicit `% 2 ^ 32` where 32-bit overflow matters,
and the 32-bit complement `~x` of the C code is `compl32`.
-/

/-- The memory-mapped register block of one PIO controller, restricted to
the registers read or written by `pio.c` (plus their enable/disable/status
companions named in the spec's data model). -/
structure Pio where
  PIO_PER : Nat
  PIO_PDR : Nat
  PIO_PSR : Nat
  PIO_OER : Nat
  PIO_ODR : Nat
  PIO_OSR : Nat
  PIO_IFER : Nat
  PIO_IFDR : Nat
  PIO_IFSR : Nat
  PIO_SODR : Nat
  PIO_CODR : Nat
  PIO_ODSR : Nat
  PIO_PDSR : Nat
  PIO_IER : Nat
  PIO_IDR : Nat
  PIO_IMR : Nat
  PIO_MDER : Nat
  PIO_MDDR : Nat
  PIO_MDSR : Nat
  PIO_PUDR : Nat
  PIO_PUER : Nat
  PIO_PUSR : Nat
  PIO_ABCDSR0 : Nat
  PIO_ABCDSR1 : Nat
  PIO_IFSCDR : Nat
  PIO_IFSCER : Nat
  PIO_IFSCSR : Nat
  PIO_SCDR : Nat
  deriving DecidableEq

/-- Modelled from the spec: the pin-role enumeration `EPioType` of the
repository header `pio.h`, which is not under `src/`; the spec's §3 lists
the roles `NotAPin` (sentinel), `PeripheralA`–`PeripheralD`, `Input`,
`OutputLow` (`PIO_OUTPUT_0`), `OutputHigh` (`PIO_OUTPUT_1`). -/
inductive EPioType where
  | PIO_NOT_A_PIN
  | PIO_PERIPH_A
  | PIO_PERIPH_B
  | PIO_PERIPH_C
  | PIO_PERIPH_D
  | PIO_INPUT
  | PIO_OUTPUT_0
  | PIO_OUTPUT_1
  deriving DecidableEq

open EPioType

/-- Modelled from the spec: attribute bit `PullUp` of `pio.h` (not under
`src/`); the spec's §3 makes the four attributes an independent bit set. -/
def PIO_PULLUP : Nat := 1

/-- Modelled from the spec: attribute bit `Deglitch` of `pio.h` (not under
`src/`). -/
def PIO_DEGLITCH : Nat := 2

/-- Modelled from the spec: attribute bit `OpenDrain` (multi-drive) of
`pio.h` (not under `src/`). -/
def PIO_OPENDRAIN : Nat := 4

/-- Modelled from the spec: attribute bit `Debounce` of `pio.h` (not under
`src/`). -/
def PIO_DEBOUNCE : Nat := 8

/-- The 32-bit complement `~x` of the C code, on values below `2 ^ 32`. -/
def compl32 (x : Nat) : Nat := (2 ^ 32 - 1) ^^^ x

/-- Division with the divide-by-zero fault made explicit: `none` is the
arithmetic fault the spec's §7 describes for a zero divisor. -/
def checkedDiv (a b : Nat) : Option Nat :=
  if b = 0 then none else some (a / b)

/-- `PIO_DisableInterrupt` of pio.c: writes the mask to the
interrupt-disable register. -/
def PIO_DisableInterrupt (p : Pio) (dwMask : Nat) : Pio :=
  { p with PIO_IDR := dwMask }

/-- `PIO_PullUp` of pio.c: writes the mask to the pull-up-enable register
when the enable argument is truthy, else to the pull-up-disable register. -/
def PIO_PullUp (p : Pio) (dwMask dwPullUpEnable : Nat) : Pio :=
  if dwPullUpEnable ≠ 0 then
    { p with PIO_PUER := dwMask }
  else
    { p with PIO_PUDR := dwMask }

/-- `PIO_SetDebounceFilter` of pio.c: selects debouncing for the mask via
`PIO_IFSCER`, then writes `((32678/(2*dwCuttOff)) - 1) & 0x3FFF` to the
slow-clock divider register `PIO_SCDR`.  All arithmetic is the 32-bit
unsigned arithmetic of the C source: the product `2*dwCuttOff` wraps
modulo `2 ^ 32` and the subtraction of 1 wraps modulo `2 ^ 32`; the
division faults (`none`) when its divisor is zero. -/
def PIO_SetDebounceFilter (p : Pio) (dwMask dwCuttOff : Nat) : Option Pio :=
  let p1 := { p with PIO_IFSCER := dwMask }
  (checkedDiv 32678 ((2 * dwCuttOff) % 2 ^ 32)).map
    (fun q => { p1 with PIO_SCDR := ((q + (2 ^ 32 - 1)) % 2 ^ 32) &&& 0x3FFF })

/-- `PIO_Set` of pio.c: writes the mask to the set-output-data register. -/
def PIO_Set (p : Pio) (dwMask : Nat) : Pio :=
  { p with PIO_SODR := dwMask }

/-- `PIO_Clear` of pio.c: writes the mask to the clear-output-data
register. -/
def PIO_Clear (p : Pio) (dwMask : Nat) : Pio :=
  { p with PIO_CODR := dwMask }

/-- `PIO_Get` of pio.c: reads `PIO_ODSR` for output roles, else
`PIO_PDSR`, and returns 1 iff the read value meets the mask; the state is
passed through because the body performs no register write. -/
def PIO_Get (p : Pio) (dwType : EPioType) (dwMask : Nat) : Nat × Pio :=
  let dwReg :=
    if dwType = PIO_OUTPUT_0 ∨ dwType = PIO_OUTPUT_1 then p.PIO_ODSR
    else p.PIO_PDSR
  (if dwReg &&& dwMask = 0 then 0 else 1, p)

/-- `PIO_SetPeripheral` of pio.c: disables interrupts on the mask, then
selects one of the four peripheral codes in the two `PIO_ABCDSR`
registers, then hands the pins to the peripheral via `PIO_PDR`; on a
non-peripheral role it returns right after the interrupt disable.  The C
function is `void`, so its returned value is the unit, paired with the
updated register block. -/
def PIO_SetPeripheral (p : Pio) (dwType : EPioType) (dwMask : Nat) : Unit × Pio :=
  let p := { p with PIO_IDR := dwMask }
  match dwType with
  | PIO_PERIPH_A =>
      let dwABCDSR := p.PIO_ABCDSR0
      let p := { p with PIO_ABCDSR0 := p.PIO_ABCDSR0 &&& (compl32 dwMask &&& dwABCDSR) }
      let dwABCDSR := p.PIO_ABCDSR1
      let p := { p with PIO_ABCDSR1 := p.PIO_ABCDSR1 &&& (compl32 dwMask &&& dwABCDSR) }
      ((), { p with PIO_PDR := dwMask })
  | PIO_PERIPH_B =>
      let dwABCDSR := p.PIO_ABCDSR0
      let p := { p with PIO_ABCDSR0 := dwMask ||| dwABCDSR }
      let dwABCDSR := p.PIO_ABCDSR1
      let p := { p with PIO_ABCDSR1 := p.PIO_ABCDSR1 &&& (compl32 dwMask &&& dwABCDSR) }
      ((), { p with PIO_PDR := dwMask })
  | PIO_PERIPH_C =>
      let dwABCDSR := p.PIO_ABCDSR0
      let p := { p with PIO_ABCDSR0 := p.PIO_ABCDSR0 &&& (compl32 dwMask &&& dwABCDSR) }
      let dwABCDSR := p.PIO_ABCDSR1
      let p := { p with PIO_ABCDSR1 := dwMask ||| dwABCDSR }
      ((), { p with PIO_PDR := dwMask })
  | PIO_PERIPH_D =>
      let dwABCDSR := p.PIO_ABCDSR0
      let p := { p with PIO_ABCDSR0 := dwMask ||| dwABCDSR }
      let dwABCDSR := p.PIO_ABCDSR1
      let p := { p with PIO_ABCDSR1 := dwMask ||| dwABCDSR }
      ((), { p with PIO_PDR := dwMask })
  | PIO_INPUT => ((), p)
  | PIO_OUTPUT_0 => ((), p)
  | PIO_OUTPUT_1 => ((), p)
  | PIO_NOT_A_PIN => ((), p)

/-- `PIO_SetInput` of pio.c: interrupt disable, pull-up, input-filter
enable/disable, deglitch-before-debounce filter selection, then output
disable and PIO enable. -/
def PIO_SetInput (p : Pio) (dwMask dwAttribute : Nat) : Pio :=
  let p := PIO_DisableInterrupt p dwMask
  let p := PIO_PullUp p dwMask (dwAttribute &&& PIO_PULLUP)
  let p :=
    if dwAttribute &&& (PIO_DEGLITCH ||| PIO_DEBOUNCE) ≠ 0 then
      { p with PIO_IFER := dwMask }
    else
      { p with PIO_IFDR := dwMask }
  let p :=
    if dwAttribute &&& PIO_DEGLITCH ≠ 0 then
      { p with PIO_IFSCDR := dwMask }
    else
      if dwAttribute &&& PIO_DEBOUNCE ≠ 0 then
        { p with PIO_IFSCER := dwMask }
      else
        p
  let p := { p with PIO_ODR := dwMask }
  { p with PIO_PER := dwMask }

/-- `PIO_SetOutput` of pio.c: interrupt disable, pull-up, multi-drive
enable/disable, default level, then output enable and PIO enable. -/
def PIO_SetOutput (p : Pio) (dwMask dwDefaultValue dwMultiDriveEnable dwPullUpEnable : Nat) : Pio :=
  let p := PIO_DisableInterrupt p dwMask
  let p := PIO_PullUp p dwMask dwPullUpEnable
  let p :=
    if dwMultiDriveEnable ≠ 0 then
      { p with PIO_MDER := dwMask }
    else
      { p with PIO_MDDR := dwMask }
  let p :=
    if dwDefaultValue ≠ 0 then
      { p with PIO_SODR := dwMask }
    else
      { p with PIO_CODR := dwMask }
  let p := { p with PIO_OER := dwMask }
  { p with PIO_PER := dwMask }

/-- `PIO_Configure` of pio.c: dispatches on the role; peripheral roles go
through `PIO_SetPeripheral` then an interrupt disable and the pull-up;
`PIO_INPUT` goes to `PIO_SetInput`; the output roles go to
`PIO_SetOutput`; the `default` branch returns 0 without any write. -/
def PIO_Configure (p : Pio) (dwType : EPioType) (dwMask dwAttribute : Nat) : Nat × Pio :=
  match dwType with
  | PIO_PERIPH_A | PIO_PERIPH_B | PIO_PERIPH_C | PIO_PERIPH_D =>
      let p := (PIO_SetPeripheral p dwType dwMask).2
      let p := PIO_DisableInterrupt p dwMask
      let p := PIO_PullUp p dwMask (dwAttribute &&& PIO_PULLUP)
      (1, p)
  | PIO_INPUT => (1, PIO_SetInput p dwMask dwAttribute)
  | PIO_OUTPUT_0 | PIO_OUTPUT_1 =>
      (1, PIO_SetOutput p dwMask
            (if dwType = PIO_OUTPUT_1 then 1 else 0)
            (if dwAttribute &&& PIO_OPENDRAIN ≠ 0 then 1 else 0)
            (if dwAttribute &&& PIO_PULLUP ≠ 0 then 1 else 0))
  | PIO_NOT_A_PIN => (0, p)

/-- `PIO_GetOutputDataStatus` of pio.c: returns 1 when the mask meets the
pin-status register and the mask meets the output-status register; the
state is passed through because the body performs no register write. -/
def PIO_GetOutputDataStatus (p : Pio) (dwMask : Nat) : Nat × Pio :=
  (if p.PIO_PSR &&& dwMask ≠ 0 then
     (if p.PIO_OSR &&& dwMask ≠ 0 then 1 else 0)
   else 0, p)

/-- A concrete register block with every register cleared, used as the
evaluation point of the witness theorems. -/
def regs0 : Pio :=
  ⟨0, 0, 0, 0, 0, 0, 0, 0, 0, 0, 0, 0, 0, 0, 0, 0, 0, 0, 0, 0, 0, 0, 0, 0, 0, 0, 0, 0⟩

/-- A concrete register block with nonzero selector registers, used as the
evaluation point of the selector-code witness. -/
def regs1 : Pio :=
  { regs0 with PIO_ABCDSR0 := 9, PIO_ABCDSR1 := 12 }

/-- Selector-0 column of the truth table in §4.1 of the spec (claim
statement, to be compared with `PIO_SetPeripheral`): roles B and D drive
the low selector bit to 1. -/
def selector0Code : EPioType → Bool
  | PIO_PERIPH_B => true
  | PIO_PERIPH_D => true
  | _ => false

/-- Selector-1 column of the truth table in §4.1 of the spec (claim
statement, to be compared with `PIO_SetPeripheral`): roles C and D drive
the high selector bit to 1. -/
def selector1Code : EPioType → Bool
  | PIO_PERIPH_C => true
  | PIO_PERIPH_D => true
  | _ => false

/-! ## Helper lemmas -/

/-- Bit view of the masked-clear pattern `a &= (~m & a)` of the C code:
on 32-bit values it clears exactly the mask bits. -/
theorem testBit_clear_masked (a m : Nat) (ha : a < 2 ^ 32) (hm : m < 2 ^ 32) (i : Nat) :
    (a &&& (compl32 m &&& a)).testBit i = (a.testBit i && !(m.testBit i)) := by
  by_cases hi : i < 32
  · simp only [compl32, Nat.testBit_and, Nat.testBit_xor, Nat.testBit_two_pow_sub_one,
      decide_eq_true hi, Bool.true_xor]
    cases a.testBit i <;> cases m.testBit i <;> rfl
  · have hig : 2 ^ 32 ≤ 2 ^ i := Nat.pow_le_pow_right (by norm_num) (Nat.le_of_not_lt hi)
    have ha' : a.testBit i = false := Nat.testBit_lt_two_pow (lt_of_lt_of_le ha hig)
    have hm' : m.testBit i = false := Nat.testBit_lt_two_pow (lt_of_lt_of_le hm hig)
    simp [compl32, Nat.testBit_and, Nat.testBit_xor, Nat.testBit_two_pow_sub_one, hi, ha', hm']

/-- A bitwise conjunction is nonzero exactly when the two operands share a
set bit. -/
theorem land_ne_zero_iff (x y : Nat) :
    x &&& y ≠ 0 ↔ ∃ i, x.testBit i = true ∧ y.testBit i = true := by
  constructor
  · intro h
    by_contra hc
    push_neg at hc
    apply h
    apply Nat.eq_of_testBit_eq
    intro i
    simp only [Nat.testBit_and, Nat.zero_testBit]
    cases hx : x.testBit i
    · simp
    · simp [hc i hx]
  · rintro ⟨i, hx, hy⟩ h0
    have hbit : (x &&& y).testBit i = true := by simp [Nat.testBit_and, hx, hy]
    rw [h0] at hbit
    simp at hbit

/-- Doubling before reduction modulo `2 ^ 32` is reduction modulo
`2 ^ 31` after doubling. -/
theorem two_mul_mod_two_pow_32 (c : Nat) : (2 * c) % 2 ^ 32 = 2 * (c % 2 ^ 31) := by
  have h : (2 : Nat) ^ 32 = 2 * 2 ^ 31 := by norm_num
  rw [h, Nat.mul_mod_mul_left]

/-! ## Claims -/

/-- C1 (code_bug): the claim says `PIO_SetDebounceFilter` writes
`((32768/(2*cutoff)) - 1) & 0x3FFF` to the divider register, matching
the 32768 Hz slow clock of the spec's §3; the source uses the transposed
constant 32678, so at cutoff 1 it writes 16338 where the claimed formula
gives 16383.  (At the spec's example cutoff 1000 both give 15, so the
spec's own test does not expose the slip.) -/
theorem setDebounceFilter_transposed_constant :
    (PIO_SetDebounceFilter regs0 5 1).map (fun p => p.PIO_SCDR) = some 16338 ∧
    ((32768 / (2 * 1) - 1) &&& 0x3FFF : Nat) = 16383 ∧ (16338 : Nat) ≠ 16383 := by
  decide

/-- C2 (counterexample): with pin-status 1, output-status 1 and mask 3,
bit position 1 of the mask has the pin-status bit clear, yet
`PIO_GetOutputDataStatus` returns 1 — contradicting "returns false if
either bit is clear for any bit position in m". -/
theorem getOutputDataStatus_not_every_bit :
    (PIO_GetOutputDataStatus { regs0 with PIO_PSR := 1, PIO_OSR := 1 } 3).1 = 1 ∧
    (3 : Nat).testBit 1 = true ∧
    ({ regs0 with PIO_PSR := 1, PIO_OSR := 1 } : Pio).PIO_PSR.testBit 1 = false := by
  decide

/-- C2 (amended): `PIO_GetOutputDataStatus` returns 1 exactly when at
least one bit position of the mask has the pin-status bit set and at
least one bit position of the mask has the output-status bit set; the two
positions need not coincide and need not exhaust the mask. -/
theorem getOutputDataStatus_any_bit (s : Pio) (m : Nat) :
    (PIO_GetOutputDataStatus s m).1 = 1 ↔
      ((∃ i, m.testBit i = true ∧ s.PIO_PSR.testBit i = true) ∧
       (∃ i, m.testBit i = true ∧ s.PIO_OSR.testBit i = true)) := by
  have e1 : s.PIO_PSR &&& m ≠ 0 ↔ ∃ i, m.testBit i = true ∧ s.PIO_PSR.testBit i = true := by
    rw [Nat.and_comm]
    exact land_ne_zero_iff m s.PIO_PSR
  have e2 : s.PIO_OSR &&& m ≠ 0 ↔ ∃ i, m.testBit i = true ∧ s.PIO_OSR.testBit i = true := by
    rw [Nat.and_comm]
    exact land_ne_zero_iff m s.PIO_OSR
  rw [← e1, ← e2]
  unfold PIO_GetOutputDataStatus
  by_cases h1 : s.PIO_PSR &&& m = 0 <;> by_cases h2 : s.PIO_OSR &&& m = 0 <;> simp [h1, h2]

/-- C3: after `PIO_SetPeripheral` with a peripheral role, every mask bit
position holds the 2-bit code of the spec's §4.1 truth table in the two
selector registers, selector bits outside the mask are unchanged, and the
pin-disable register is written with the mask. -/
theorem setPeripheral_selector_codes (s : Pio) (m : Nat) (r : EPioType)
    (hr : r = PIO_PERIPH_A ∨ r = PIO_PERIPH_B ∨ r = PIO_PERIPH_C ∨ r = PIO_PERIPH_D)
    (hm : m < 2 ^ 32) (h0 : s.PIO_ABCDSR0 < 2 ^ 32) (h1 : s.PIO_ABCDSR1 < 2 ^ 32) :
    (∀ i, m.testBit i = true →
        ((PIO_SetPeripheral s r m).2.PIO_ABCDSR0.testBit i = selector0Code r ∧
         (PIO_SetPeripheral s r m).2.PIO_ABCDSR1.testBit i = selector1Code r)) ∧
    (∀ i, m.testBit i = false →
        ((PIO_SetPeripheral s r m).2.PIO_ABCDSR0.testBit i = s.PIO_ABCDSR0.testBit i ∧
         (PIO_SetPeripheral s r m).2.PIO_ABCDSR1.testBit i = s.PIO_ABCDSR1.testBit i)) ∧
    (PIO_SetPeripheral s r m).2.PIO_PDR = m := by
  rcases hr with rfl | rfl | rfl | rfl <;>
    refine ⟨fun i hib => ⟨?_, ?_⟩, fun i hib => ⟨?_, ?_⟩, rfl⟩ <;>
    simp [PIO_SetPeripheral, selector0Code, selector1Code,
      testBit_clear_masked _ _ h0 hm, testBit_clear_masked _ _ h1 hm,
      Nat.testBit_or, hib]

/-- C3 (witness): with selector registers 9 and 12, mask 6 and role B, bit
1 of the selectors takes the (0,1) code, bit 3 is untouched, and the
pin-disable register reads 6. -/
theorem setPeripheral_selector_codes_witness :
    (PIO_SetPeripheral regs1 PIO_PERIPH_B 6).2.PIO_ABCDSR0.testBit 1 = selector0Code PIO_PERIPH_B ∧
    (PIO_SetPeripheral regs1 PIO_PERIPH_B 6).2.PIO_ABCDSR1.testBit 1 = selector1Code PIO_PERIPH_B ∧
    (PIO_SetPeripheral regs1 PIO_PERIPH_B 6).2.PIO_ABCDSR0.testBit 3 = regs1.PIO_ABCDSR0.testBit 3 ∧
    (PIO_SetPeripheral regs1 PIO_PERIPH_B 6).2.PIO_PDR = 6 := by
  have h := setPeripheral_selector_codes regs1 6 PIO_PERIPH_B (Or.inr (Or.inl rfl))
    (by decide) (by decide) (by decide)
  exact ⟨(h.1 1 (by decide)).1, (h.1 1 (by decide)).2, (h.2.1 3 (by decide)).1, h.2.2⟩

/-- C4 (counterexample): `PIO_SetPeripheral` is a void function, so its
returned value cannot signal failure: at a concrete input the returned
value of an invalid-role call is identical to that of a valid peripheral
call, while `PIO_Configure` (which does return a code) distinguishes the
two — falsifying the half of the claim that says `SetPeripheral` returns
a failure indicator. -/
theorem setPeripheral_no_failure_value :
    (PIO_SetPeripheral regs0 PIO_NOT_A_PIN 1).1 = (PIO_SetPeripheral regs0 PIO_PERIPH_A 1).1 ∧
    (PIO_Configure regs0 PIO_NOT_A_PIN 1 0).1 ≠ (PIO_Configure regs0 PIO_PERIPH_A 1 0).1 := by
  exact ⟨rfl, by decide⟩

/-- C4 (amended): `PIO_Configure` returns 0 — a failure indicator — on a
role outside its accepted set; `PIO_SetPeripheral`, being void, signals
nothing on an invalid role: it returns after only the interrupt-disable
write. -/
theorem invalid_role_failure_signalling (s : Pio) (m a : Nat) :
    (PIO_Configure s PIO_NOT_A_PIN m a).1 = 0 ∧
    (PIO_SetPeripheral s PIO_NOT_A_PIN m).2 = { s with PIO_IDR := m } :=
  ⟨rfl, rfl⟩

/-- C5: on the non-peripheral roles, `PIO_SetPeripheral` writes the mask
to the interrupt-disable register and returns with every other register
unchanged. -/
theorem setPeripheral_invalid_role_effect (s : Pio) (m : Nat) (r : EPioType)
    (hr : r = PIO_INPUT ∨ r = PIO_OUTPUT_0 ∨ r = PIO_OUTPUT_1 ∨ r = PIO_NOT_A_PIN) :
    (PIO_SetPeripheral s r m).2 = { s with PIO_IDR := m } := by
  rcases hr with rfl | rfl | rfl | rfl <;> rfl

/-- C5 (witness): the invalid-role effect evaluated at role Input, mask 5
and the all-zero register block. -/
theorem setPeripheral_invalid_role_effect_witness :
    (PIO_SetPeripheral regs0 PIO_INPUT 5).2 = { regs0 with PIO_IDR := 5 } :=
  setPeripheral_invalid_role_effect regs0 5 PIO_INPUT (Or.inl rfl)

/-- C6: `PIO_Configure` with the `NotAPin` role returns the failure code 0
and the register block exactly as supplied — its dispatch rejects the
role before any write. -/
theorem configure_not_a_pin_rejected (s : Pio) (m a : Nat) :
    PIO_Configure s PIO_NOT_A_PIN m a = (0, s) :=
  rfl

/-- C7: in `PIO_SetInput`, the deglitch selection (`PIO_IFSCDR`) is
written with the mask whenever the Deglitch attribute is set, regardless
of Debounce; the debounce selection (`PIO_IFSCER`) is written with the
mask only when Debounce is set and Deglitch is clear; and the divider
register `PIO_SCDR` is never touched. -/
theorem setInput_filter_selection (s : Pio) (m a : Nat) :
    (a &&& PIO_DEGLITCH ≠ 0 → (PIO_SetInput s m a).PIO_IFSCDR = m) ∧
    (a &&& PIO_DEGLITCH = 0 → a &&& PIO_DEBOUNCE ≠ 0 → (PIO_SetInput s m a).PIO_IFSCER = m) ∧
    (¬(a &&& PIO_DEGLITCH = 0 ∧ a &&& PIO_DEBOUNCE ≠ 0) →
      (PIO_SetInput s m a).PIO_IFSCER = s.PIO_IFSCER) ∧
    (PIO_SetInput s m a).PIO_SCDR = s.PIO_SCDR := by
  refine ⟨fun h => ?_, fun h h2 => ?_, fun h => ?_, ?_⟩ <;>
    simp only [PIO_SetInput, PIO_DisableInterrupt, PIO_PullUp] <;>
    split_ifs <;> simp_all

/-- C7 (witness): with both filter attributes set, deglitch wins and the
debounce selection register is untouched; with Debounce alone it is
written; the divider register stays. -/
theorem setInput_filter_selection_witness :
    (PIO_SetInput regs0 5 (PIO_DEGLITCH ||| PIO_DEBOUNCE)).PIO_IFSCDR = 5 ∧
    (PIO_SetInput regs0 5 (PIO_DEGLITCH ||| PIO_DEBOUNCE)).PIO_IFSCER = regs0.PIO_IFSCER ∧
    (PIO_SetInput regs0 5 PIO_DEBOUNCE).PIO_IFSCER = 5 ∧
    (PIO_SetInput regs0 5 PIO_DEBOUNCE).PIO_SCDR = regs0.PIO_SCDR := by
  have h1 := setInput_filter_selection regs0 5 (PIO_DEGLITCH ||| PIO_DEBOUNCE)
  have h2 := setInput_filter_selection regs0 5 PIO_DEBOUNCE
  exact ⟨h1.1 (by decide), h1.2.2.1 (by decide), h2.2.1 (by decide) (by decide), h2.2.2.2⟩

/-- C8 (counterexample): a cutoff of `2 ^ 31` is positive, yet the 32-bit
product `2 * cutoff` wraps to 0 and the guarded division faults —
falsifying "under the precondition cutoff > 0 that error branch is
unreachable". -/
theorem setDebounceFilter_cutoff_overflow_fault :
    PIO_SetDebounceFilter regs0 5 (2 ^ 31) = none ∧ 0 < 2 ^ 31 := by
  decide

/-- C8 (amended): the division-by-zero branch of `PIO_SetDebounceFilter`
is reached exactly when the 32-bit product `2 * cutoff` is zero, i.e.
when the cutoff is a multiple of `2 ^ 31` — in particular at cutoff 0,
and for every mask and register state it is unreachable at any other
cutoff. -/
theorem setDebounceFilter_fault_iff (s : Pio) (m c : Nat) :
    PIO_SetDebounceFilter s m c = none ↔ c % 2 ^ 31 = 0 := by
  unfold PIO_SetDebounceFilter checkedDiv
  rw [two_mul_mod_two_pow_32]
  by_cases h : 2 * (c % 2 ^ 31) = 0 <;> simp [h]

/-- C9: `PIO_Get` and `PIO_GetOutputDataStatus` are pure reads of the
register block: the state each returns is the state it was given, for
every role, mask and register state. -/
theorem get_operations_pure (s : Pio) (t : EPioType) (m : Nat) :
    (PIO_Get s t m).2 = s ∧ (PIO_GetOutputDataStatus s m).2 = s :=
  ⟨rfl, rfl⟩

/-- C10: for a peripheral role, `PIO_Configure` depends on the attribute
word only through the PullUp bit — two attribute sets agreeing on it
produce the same result code and the same final register block. -/
theorem configure_peripheral_attr_independent (s : Pio) (m a1 a2 : Nat) (r : EPioType)
    (hr : r = PIO_PERIPH_A ∨ r = PIO_PERIPH_B ∨ r = PIO_PERIPH_C ∨ r = PIO_PERIPH_D)
    (ha : a1 &&& PIO_PULLUP = a2 &&& PIO_PULLUP) :
    PIO_Configure s r m a1 = PIO_Configure s r m a2 := by
  rcases hr with rfl | rfl | rfl | rfl <;> simp [PIO_Configure, ha]

/-- C10 (witness): attribute word 15 (PullUp, Deglitch, OpenDrain and
Debounce all set) and attribute word 1 (PullUp alone) configure role A
identically. -/
theorem configure_peripheral_attr_independent_witness :
    PIO_Configure regs0 PIO_PERIPH_A 1 15 = PIO_Configure regs0 PIO_PERIPH_A 1 1 :=
  configure_peripheral_attr_independent regs0 1 15 1 PIO_PERIPH_A (Or.inl rfl) (by decide)
